import Mathlib

/-!
Verification development for the Pliable interactive solid editor.

This file gives a shallow embedding, in Lean 4, of the edit-engine core of
the Pliable source (src/document.py, src/geometry.py, src/viewer.py,
src/interaction.py) and proves or refutes the frozen specification claims
about it.

Modelling conventions, used throughout:

* Machine floating-point scalars are embedded as rationals.  The debouncing
  constants 0.01 and 0.5 from the source become the exact rationals
  1/100 and 1/2.
* OCCT shape handles (TopoDS_Shape) are opaque values owned by the geometry
  kernel; the embedding models them as natural-number handles with value
  semantics, so BRepBuilderAPI_Copy (an independent, value-equal deep copy)
  is the identity on handle values.
* The geometry kernel (prism building, boolean fuse and cut, fillet and
  chamfer builders, refinement, volume properties) is an external
  collaborator; each of its operations is modelled by an abstract outcome
  recorded in a GeomKernel record, exactly as a stub kernel would be
  injected in a test harness.  The functions under verification are
  parametrised by this record, their control flow is translated
  branch-for-branch from the Python source, and they additionally return
  the list of kernel operations they invoked, so that claims about which
  kernel calls happen are statable; the first component is always the
  source's return value.
* Display and viewport calls (DisplayShape, Context.Remove, FitAll, ...)
  are external side effects with no influence on the data flow of the
  claims; they are elided, and each elision is noted in a comment at the
  corresponding point of the translated function.
* Status-bar messages (parent_window.show_status_message) are modelled by
  an inductive Status type, one constructor per distinct format string of
  the source, accumulated in an explicit list.
-/

/-- Opaque kernel shape handle (TopoDS_Shape), modelled with value
semantics as a natural-number handle. -/
abbrev Shape := Nat

/-- BRepBuilderAPI_Copy: an independent deep copy of a shape.  Copies are
value-equal to the original and independence is a memory notion, so under
value semantics the copy is the identity on the handle value. -/
def copyShape (s : Shape) : Shape := s

/-- Vector in 3-space with rational components (gp_Vec / gp_Pnt). -/
structure Vec3 where
  x : ℚ
  y : ℚ
  z : ℚ
deriving DecidableEq

/-- Dot product of gp_Vec. -/
def Vec3.dot (a b : Vec3) : ℚ := a.x * b.x + a.y * b.y + a.z * b.z

/-- Cross product (gp_Vec.Crossed). -/
def Vec3.cross (a b : Vec3) : Vec3 :=
  ⟨a.y * b.z - a.z * b.y, a.z * b.x - a.x * b.z, a.x * b.y - a.y * b.x⟩

/-- Componentwise difference (used for point differences such as
cam_pos - center). -/
def Vec3.sub (a b : Vec3) : Vec3 := ⟨a.x - b.x, a.y - b.y, a.z - b.z⟩

/-- gp_Vec.Reverse: negation. -/
def Vec3.neg (a : Vec3) : Vec3 := ⟨-a.x, -a.y, -a.z⟩

/-- Scalar multiple of a vector. -/
def Vec3.smul (c : ℚ) (a : Vec3) : Vec3 := ⟨c * a.x, c * a.y, c * a.z⟩

/-- The data of a TopoDS_Face that get_face_center_and_normal reads:
the surface centroid and raw surface normal at the UV midpoint
(GeomLProp_SLProps), whether that normal is defined, the topological
orientation flag (TopAbs_REVERSED), and the mass-properties centroid used
by the fallback branch. -/
structure FaceData where
  center : Vec3
  rawNormal : Vec3
  reversedOrientation : Bool
  normalDefined : Bool
  fallbackCenter : Vec3
deriving DecidableEq

/-- src/geometry.py get_face_center_and_normal: returns the face centroid
and unit normal; the normal is reversed when the face's topological
orientation is TopAbs_REVERSED.  When the surface normal is undefined the
source falls back to the surface mass-properties centroid and the default
normal (0, 0, 1).  (The optional solid argument of the source is never
read by the function body; only face.Orientation() is consulted.) -/
def get_face_center_and_normal (f : FaceData) : Vec3 × Vec3 :=
  if f.normalDefined then
    let normal := f.rawNormal
    let normal := if f.reversedOrientation then normal.neg else normal
    (f.center, normal)
  else
    (f.fallbackCenter, ⟨0, 0, 1⟩)

/-- Camera state read from the OCCT view: eye position, unit view
direction, unit up vector, view scale, and viewport pixel height.
The source calls Normalize() on up and direction; the OCCT camera
delivers unit vectors, so those calls are the identity, and the theorems
below carry the unit-length facts as explicit hypotheses. -/
structure CameraState where
  eye : Vec3
  direction : Vec3
  up : Vec3
  scale : ℚ
  screenHeight : ℚ
deriving DecidableEq

/-- The camera-space 3D delta computed inside calculate_push_pull_offset
from a screen-pixel delta:
view_height_at_depth = screen_height / scale, mm_per_pixel =
view_height_at_depth / screen_height, world deltas are the screen deltas
scaled by mm_per_pixel, right = direction x up (the source normalizes
right; for a unit, mutually orthogonal camera frame the cross product is
already unit, which the theorems record as hypotheses), and the delta is
right * world_dx - up * world_dy componentwise. -/
def camera_space_delta (cam : CameraState) (screen_delta_x screen_delta_y : ℚ) : Vec3 :=
  let scale := cam.scale
  let screen_height := cam.screenHeight
  let view_height_at_depth := screen_height / scale
  let mm_per_pixel := view_height_at_depth / screen_height
  let world_delta_x := screen_delta_x * mm_per_pixel
  let world_delta_y := screen_delta_y * mm_per_pixel
  let up := cam.up
  let direction := cam.direction
  let right := direction.cross up
  ⟨right.x * world_delta_x - up.x * world_delta_y,
   right.y * world_delta_x - up.y * world_delta_y,
   right.z * world_delta_x - up.z * world_delta_y⟩

/-- src/geometry.py calculate_push_pull_offset: maps a screen drag delta
to a signed offset along the face normal.  Translated branch-for-branch;
the source also computes distance_to_face, which it never uses, and
normalizes face_to_cam, which is used only through the sign of
facing_camera, so the embedding compares the unnormalized dot product
with zero (same sign whenever the eye differs from the centroid; at
coincidence the source's Normalize would raise). -/
def calculate_push_pull_offset (cam : CameraState) (f : FaceData)
    (screen_delta_x screen_delta_y : ℚ) : ℚ :=
  let cn := get_face_center_and_normal f
  let center := cn.1
  let normal := cn.2
  let camera_space := camera_space_delta cam screen_delta_x screen_delta_y
  let face_to_cam := cam.eye.sub center
  let facing_camera := normal.dot face_to_cam
  let offset := camera_space.dot normal
  if facing_camera < 0 then -offset else offset

/-- Modelled from the spec (claim C5 wording): offset =
(right * dx * mmPerPixel - up * dy * mmPerPixel) dotted with the face's
outward normal, where right is the (normalized) cross product of
direction and up, the normal is flipped when the face's topological
orientation is REVERSED, and the offset is negated exactly when
normal . (cameraEye - centroid) is negative.  Stated for faces whose
surface normal is defined. -/
def pushPullOffset_spec (cam : CameraState) (f : FaceData)
    (dx dy : ℚ) : ℚ :=
  let mmPerPixel := (cam.screenHeight / cam.scale) / cam.screenHeight
  let right := cam.direction.cross cam.up
  let n := if f.reversedOrientation then f.rawNormal.neg else f.rawNormal
  let cameraDelta := (Vec3.smul (dx * mmPerPixel) right).sub (Vec3.smul (dy * mmPerPixel) cam.up)
  let base := cameraDelta.dot n
  if n.dot (cam.eye.sub f.center) < 0 then -base else base

/-- Concrete camera of the spec's push/pull example: looking along
(0,0,-1) with up (0,1,0), scale 1 (so mmPerPixel = 1), viewport height
800 px, eye on the +z axis in front of the face. -/
def cam0 : CameraState :=
  { eye := ⟨0, 0, 200⟩, direction := ⟨0, 0, -1⟩, up := ⟨0, 1, 0⟩,
    scale := 1, screenHeight := 800 }

/-- Concrete face of the spec's push/pull example: normal (0,0,1),
centroid (0,0,100), forward orientation. -/
def face0 : FaceData :=
  { center := ⟨0, 0, 100⟩, rawNormal := ⟨0, 0, 1⟩,
    reversedOrientation := false, normalDefined := true,
    fallbackCenter := ⟨0, 0, 0⟩ }

/-- Gesture classification of the edge-edit mapper. -/
inductive OpKind where
  | fillet
  | chamfer
deriving DecidableEq

/-- src/geometry.py calculate_fillet_chamfer_radius, from the point where
the two screen distances to the projected center of mass are known: the
source computes dist_start and dist_current as Euclidean pixel distances
(math.sqrt of sums of squares) from the drag-start and current cursor
positions to the projected COM; the embedding takes those two
non-negative distances as inputs, since every subsequent step of the
source (the classification comparison and the radius) reads the
positions only through them.  Classification is fillet when
dist_current > dist_start, chamfer otherwise; the radius is
|dist_current - dist_start| converted by the same
(screen_height / scale) / screen_height scale as push/pull. -/
def calculate_fillet_chamfer_radius (scale screen_height dist_start dist_current : ℚ) :
    ℚ × OpKind :=
  let operation_type := if dist_current > dist_start then OpKind.fillet else OpKind.chamfer
  let distance_change_pixels := |dist_current - dist_start|
  let view_height_at_depth := screen_height / scale
  let mm_per_pixel := view_height_at_depth / screen_height
  (distance_change_pixels * mm_per_pixel, operation_type)

/-- src/document.py Document: the authoritative current shape, the cached
center of mass (an opaque kernel value, modelled as a natural number, or
none when invalidated or when the kernel computation failed), and the
bounded undo and redo stacks.  The Python lists append at the end and pop
from the end; the embedding stores each stack with the NEWEST entry at
the head, so list.append is cons, list.pop() takes the head, and
list.pop(0) (the oldest entry) is dropLast. -/
structure Document where
  shape : Shape
  cached_com : Option Nat
  undo_stack : List Shape
  redo_stack : List Shape
  max_history : Nat
deriving DecidableEq

/-- Document.__init__: default 100 mm cube (an opaque handle here), no
cached COM, empty stacks, history limit 20. -/
def Document.init : Document :=
  { shape := 0, cached_com := none, undo_stack := [], redo_stack := [],
    max_history := 20 }

/-- src/document.py Document.save_to_history: push an explicit copy of
the current shape onto the undo stack, evict the oldest entry (pop(0))
when the stack exceeds max_history, and clear the redo stack. -/
def Document.save_to_history (d : Document) : Document :=
  let us := copyShape d.shape :: d.undo_stack
  let us := if us.length > d.max_history then us.dropLast else us
  { d with undo_stack := us, redo_stack := [] }

/-- src/document.py Document.can_undo: len(undo_stack) > 0. -/
def Document.can_undo (d : Document) : Bool := decide (0 < d.undo_stack.length)

/-- src/document.py Document.can_redo: len(redo_stack) > 0. -/
def Document.can_redo (d : Document) : Bool := decide (0 < d.redo_stack.length)

/-- src/document.py Document.undo: returns false with no mutation when
the undo stack is empty (the source's can_undo guard is the empty-list
match arm); otherwise pushes a copy of the current shape onto the redo
stack, pops the undo stack into the current shape, invalidates the COM
cache, and returns true. -/
def Document.undo (d : Document) : Bool × Document :=
  match d.undo_stack with
  | [] => (false, d)
  | top :: rest =>
    (true, { d with redo_stack := copyShape d.shape :: d.redo_stack,
                    shape := top, undo_stack := rest, cached_com := none })

/-- src/document.py Document.redo: symmetric to undo with the stacks
swapped. -/
def Document.redo (d : Document) : Bool × Document :=
  match d.redo_stack with
  | [] => (false, d)
  | top :: rest =>
    (true, { d with undo_stack := copyShape d.shape :: d.undo_stack,
                    shape := top, redo_stack := rest, cached_com := none })

/-- src/document.py Document.set_shape: replace the current shape and
invalidate the COM cache. -/
def Document.set_shape (d : Document) (s : Shape) : Document :=
  { d with shape := s, cached_com := none }

/-- src/document.py Document.update_center_of_mass: recompute and cache
the COM of the current shape.  The kernel volume-properties query
(get_center_of_mass, which returns None on failure) is passed in as the
function comF. -/
def Document.update_center_of_mass (d : Document) (comF : Shape → Option Nat) : Document :=
  { d with cached_com := comF d.shape }

/-- Outcome of one OCCT builder call (BRepPrimAPI_MakePrism,
BRepAlgoAPI_Fuse, BRepAlgoAPI_Cut, BRepFilletAPI_Make*): the build
completed with IsDone() true and a non-null Shape(); completed with a
null Shape(); completed with IsDone() false; or threw an exception. -/
inductive KOutcome where
  | success (s : Shape)
  | nullShape (s : Shape)
  | notDone
  | raises
deriving DecidableEq

/-- IsDone() of a builder outcome. -/
def KOutcome.isDone : KOutcome → Bool
  | .success _ => true
  | .nullShape _ => true
  | .notDone => false
  | .raises => false

/-- A boolean-operation outcome that offset_face treats as a failure
(IsDone() false, a null result shape, or an exception). -/
def KOutcome.failed : KOutcome → Bool
  | .success _ => false
  | _ => true

/-- Outcome of the worker-thread refinement in offset_face
(ShapeUpgrade_UnifySameDomain run on a daemon thread with a 5 second
join): the refiner finished with a shape whose IsNull() is the recorded
flag; it raised inside the thread (which also covers the shared cell
staying None); or the 5 second join timed out with the thread still
alive. -/
inductive RefineOutcome where
  | done (s : Shape) (isNull : Bool)
  | raises
  | timesOut
deriving DecidableEq

/-- Outcome of the inline (same-thread, untimed) refinement in
finalize_fillet_chamfer: finished with a shape and its IsNull() flag, or
raised (caught only by the surrounding commit-wide except). -/
inductive InlineRefineOutcome where
  | done (s : Shape) (isNull : Bool)
  | raises
deriving DecidableEq

/-- Stub geometry kernel: one recorded outcome per kernel operation a
single commit can perform, plus the volume-properties COM query. -/
structure GeomKernel where
  prism : KOutcome
  fuse : KOutcome
  cut : KOutcome
  refine : RefineOutcome
  filletBuild : KOutcome
  chamferBuild : KOutcome
  refineInline : InlineRefineOutcome
  com : Shape → Option Nat

/-- Trace entry: one kernel operation invoked by a commit.  The prism
entry records the extrusion vector handed to BRepPrimAPI_MakePrism. -/
inductive KCall where
  | mkPrism (offset_vec : Vec3)
  | fuseOp
  | cutOp
  | refineOp
  | filletOp
  | chamferOp
deriving DecidableEq

/-- src/geometry.py offset_face: the push/pull commit kernel wrapper.
Returns the source's return value (None propagates the None solid of the
first guard) together with the list of kernel operations invoked.
Branch-for-branch translation: None solid or face returns the solid;
|distance| < 0.01 returns the solid; the prism is extruded along the
face normal scaled by distance; fuse when distance > 0, else cut; any
builder failure, null result, or exception returns the input solid; the
refinement runs on a worker thread with a 5 second join and every
timeout, exception, or null refined shape falls back to the unrefined
boolean result. -/
def offset_face (k : GeomKernel) (solid : Option Shape) (face : Option FaceData)
    (distance : ℚ) : Option Shape × List KCall :=
  match solid, face with
  | none, _ => (none, [])
  | some s, none => (some s, [])
  | some s, some f =>
    if |distance| < 1 / 100 then (some s, [])
    else
      let cn := get_face_center_and_normal f
      let normal := cn.2
      let offset_vec : Vec3 :=
        ⟨normal.x * distance, normal.y * distance, normal.z * distance⟩
      match k.prism with
      | .notDone => (some s, [.mkPrism offset_vec])
      | .raises => (some s, [.mkPrism offset_vec])
      | _ =>
        let calls := [KCall.mkPrism offset_vec,
                      if distance > 0 then KCall.fuseOp else KCall.cutOp]
        match (if distance > 0 then k.fuse else k.cut) with
        | .notDone => (some s, calls)
        | .raises => (some s, calls)
        | .nullShape _ => (some s, calls)
        | .success result =>
          let calls := calls ++ [KCall.refineOp]
          match k.refine with
          | .timesOut => (some result, calls)
          | .raises => (some result, calls)
          | .done refined isNull =>
            if isNull then (some result, calls) else (some refined, calls)

/-- Status-bar messages of the source, one constructor per distinct
format string (the numeric parts of the formatted strings are dropped;
the operation kind of the fillet/chamfer messages is kept). -/
inductive Status where
  | noSelection
  | mixedSelection
  | vertexUnsupported
  | pushPullDragStarted
  | filletDragStarted
  | noFaceSelected
  | computingPushPull
  | pushPullComplete
  | offsetFaceReturnedNone
  | ready
  | noEdgesSelected
  | operationTooSmall
  | computingOp (op : OpKind)
  | opFailed (op : OpKind)
  | opNullShape (op : OpKind)
  | opComplete (op : OpKind)
  | opError (op : OpKind)
deriving DecidableEq

/-- A picked sub-shape: its TopAbs shape-type code (4 = face, 6 = edge,
7 = vertex) and, for faces, the geometric data the mappers and
offset_face read; the payload is unused for edges and vertices. -/
structure SubShape where
  shapeType : Nat
  faceData : FaceData
deriving DecidableEq

/-- The PliableViewer state the commit paths read and write: the
document, the current selection, the original_shape snapshot recorded at
first selection, and the accumulated status-bar messages.  Display
handles (ais_shape, preview_shape_ais, highlighted_ais_objects) are
viewport-side resources and are elided. -/
structure PliableViewer where
  document : Document
  selected_shapes : List SubShape
  original_shape : Option Shape
  statuses : List Status
deriving DecidableEq

/-- src/viewer.py PliableViewer.finalize_push_pull: the push/pull commit.
Branch-for-branch translation; display clears (Context.Remove of the
preview, highlights and ais_shape, ClearSelected, RemoveAll,
DisplayShape, Activate of the three pick modes, FitAll, Repaint) are
elided.  The source wraps the offset_face call in try/except, but the
modelled offset_face is total, so the except branch is unreachable
here.  Returns the updated viewer and the kernel-call trace of the
offset_face call. -/
def finalize_push_pull (k : GeomKernel) (v : PliableViewer) (offset : ℚ) :
    PliableViewer × List KCall :=
  match v.selected_shapes.find? (fun shp => shp.shapeType == 4) with
  | none => ({ v with statuses := v.statuses ++ [Status.noFaceSelected] }, [])
  | some selected_face =>
    let v1 := { v with statuses := v.statuses ++ [Status.computingPushPull] }
    let v2 := { v1 with document := v1.document.save_to_history }
    let shape_to_modify :=
      match v2.original_shape with
      | some s => s
      | none => v2.document.shape
    let res := offset_face k (some shape_to_modify) (some selected_face.faceData) offset
    match res.1 with
    | some new_shape =>
      let v3 := { v2 with document := v2.document.set_shape new_shape }
      let v4 := { v3 with statuses := v3.statuses ++ [Status.pushPullComplete] }
      let v5 := { v4 with document := v4.document.update_center_of_mass k.com }
      ({ v5 with selected_shapes := [], original_shape := none,
                 statuses := v5.statuses ++ [Status.ready] }, res.2)
    | none =>
      ({ v2 with statuses := v2.statuses ++ [Status.offsetFaceReturnedNone] }, res.2)

/-- src/viewer.py PliableViewer.finalize_fillet_chamfer: the
fillet/chamfer commit.  Branch-for-branch translation with display
clears elided.  The overall return type is an Option because when
original_shape is None the source's else branch reads self.shape, an
attribute PliableViewer never defines, and the AttributeError escapes
the handler (that line sits outside the try block); none models that
escape.  The builder outcome covers BRepFilletAPI construction, the Add
loop and Build; the inline ShapeUpgrade refinement has no worker thread
and no timeout, a null refined shape falls back to the unrefined result,
and a refinement exception is caught by the commit-wide except, which
aborts.  Returns the viewer and the kernel-call trace. -/
def finalize_fillet_chamfer (k : GeomKernel) (v : PliableViewer) (radius : ℚ)
    (operation_type : OpKind) : Option (PliableViewer × List KCall) :=
  let selected_edges := v.selected_shapes.filter (fun shp => shp.shapeType == 6)
  if selected_edges.isEmpty then
    some ({ v with statuses := v.statuses ++ [Status.noEdgesSelected] }, [])
  else if |radius| < 1 / 2 then
    some ({ v with statuses := v.statuses ++ [Status.operationTooSmall] }, [])
  else
    let v1 := { v with statuses := v.statuses ++ [Status.computingOp operation_type] }
    let v2 := { v1 with document := v1.document.save_to_history }
    match v2.original_shape with
    | none => none
    | some _shape_to_modify =>
      let bres :=
        match operation_type with
        | OpKind.fillet => k.filletBuild
        | OpKind.chamfer => k.chamferBuild
      let calls :=
        [match operation_type with
         | OpKind.fillet => KCall.filletOp
         | OpKind.chamfer => KCall.chamferOp]
      match bres with
      | .raises =>
        some ({ v2 with statuses := v2.statuses ++ [Status.opError operation_type] }, calls)
      | .notDone =>
        some ({ v2 with statuses := v2.statuses ++ [Status.opFailed operation_type] }, calls)
      | .nullShape _ =>
        some ({ v2 with statuses := v2.statuses ++ [Status.opNullShape operation_type] }, calls)
      | .success result =>
        let calls := calls ++ [KCall.refineOp]
        match k.refineInline with
        | .raises =>
          some ({ v2 with statuses := v2.statuses ++ [Status.opError operation_type] }, calls)
        | .done refined_result isNull =>
          let new_shape := if isNull then result else refined_result
          let v3 := { v2 with document := v2.document.set_shape new_shape }
          let v4 := { v3 with statuses := v3.statuses ++ [Status.opComplete operation_type] }
          let v5 := { v4 with document := v4.document.update_center_of_mass k.com }
          some ({ v5 with selected_shapes := [], original_shape := none,
                          statuses := v5.statuses ++ [Status.ready] }, calls)

/-- src/interaction.py: any selected face (ShapeType 4) in the
selection. -/
def hasFaces (sel : List SubShape) : Bool := sel.any (fun shp => shp.shapeType == 4)

/-- src/interaction.py: any selected edge (ShapeType 6) in the
selection. -/
def hasEdges (sel : List SubShape) : Bool := sel.any (fun shp => shp.shapeType == 6)

/-- src/interaction.py: any selected vertex (ShapeType 7) in the
selection. -/
def hasVertices (sel : List SubShape) : Bool := sel.any (fun shp => shp.shapeType == 7)

/-- Which drag gesture a successful button-down arms. -/
inductive DragMode where
  | pushPull
  | filletChamfer
deriving DecidableEq

/-- src/interaction.py InteractionHandler.on_mouse_press, the gated body
that runs on left button-down with Shift held: validates the selection
and either arms a drag (records the drag-start anchor, modelled as some
DragMode) or refuses with a status message.  The source's branch order:
empty selection; faces mixed with edges or vertices; any vertices; faces
(arm push/pull); edges (arm fillet/chamfer).  A non-empty selection
containing none of the three kinds falls through every branch with no
message (unreachable in the source because on_select filters picks to
kinds 4, 6, 7). -/
def on_mouse_press (sel : List SubShape) : Option DragMode × Option Status :=
  if sel.isEmpty then (none, some Status.noSelection)
  else if hasFaces sel && (hasEdges sel || hasVertices sel) then
    (none, some Status.mixedSelection)
  else if hasVertices sel then (none, some Status.vertexUnsupported)
  else if hasFaces sel then (some DragMode.pushPull, some Status.pushPullDragStarted)
  else if hasEdges sel then (some DragMode.filletChamfer, some Status.filletDragStarted)
  else (none, none)

/-- Selection classification of the specification. -/
inductive SelectionClass where
  | noSelection
  | faceOnly (n : Nat)
  | edgeOnly (n : Nat)
  | vertexOnly (n : Nat)
  | mixed
deriving DecidableEq

/-- Modelled from the spec: the Selection Tracker classification query,
classify() into NoSelection, FaceOnly(n), EdgeOnly(n), VertexOnly(n) or
Mixed; the source has no classify function (it tests has_faces/
has_edges/has_vertices flags inline), so this spec-side definition is
used to compare the source's gating against the spec's classes. -/
def classify (sel : List SubShape) : SelectionClass :=
  if sel.isEmpty then SelectionClass.noSelection
  else if sel.all (fun shp => shp.shapeType == 4) then SelectionClass.faceOnly sel.length
  else if sel.all (fun shp => shp.shapeType == 6) then SelectionClass.edgeOnly sel.length
  else if sel.all (fun shp => shp.shapeType == 7) then SelectionClass.vertexOnly sel.length
  else SelectionClass.mixed

/-- Well-formed selections: every element is a face, edge or vertex
(guaranteed by the on_select filter in src/viewer.py). -/
def wellFormedSel (sel : List SubShape) : Prop :=
  ∀ shp ∈ sel, shp.shapeType = 4 ∨ shp.shapeType = 6 ∨ shp.shapeType = 7

/-- Concrete picked face. -/
def faceSub : SubShape := ⟨4, face0⟩

/-- Concrete picked edge. -/
def edgeSub : SubShape := ⟨6, face0⟩

/-- Concrete picked vertex. -/
def vertexSub : SubShape := ⟨7, face0⟩

/-- Stub kernel whose builders all report failure (IsDone() false), whose
threaded refinement times out, whose inline refinement raises, and whose
COM query fails. -/
def kernelFail : GeomKernel :=
  { prism := KOutcome.notDone, fuse := KOutcome.notDone, cut := KOutcome.notDone,
    refine := RefineOutcome.timesOut, filletBuild := KOutcome.notDone,
    chamferBuild := KOutcome.notDone, refineInline := InlineRefineOutcome.raises,
    com := fun _ => none }

/-- Stub kernel whose builders all succeed (prism 2, fuse 10, cut 11,
fillet 12, chamfer 13), whose threaded refinement times out and whose
inline refinement raises. -/
def kernelTimeout : GeomKernel :=
  { prism := KOutcome.success 2, fuse := KOutcome.success 10, cut := KOutcome.success 11,
    refine := RefineOutcome.timesOut, filletBuild := KOutcome.success 12,
    chamferBuild := KOutcome.success 13, refineInline := InlineRefineOutcome.raises,
    com := fun _ => none }

/-- Concrete viewer about to commit on a selected edge: shape 0, empty
undo stack, one stale redo entry, original_shape snapshot taken. -/
def viewerEdge : PliableViewer :=
  { document := { shape := 0, cached_com := some 3, undo_stack := [], redo_stack := [9],
                  max_history := 20 },
    selected_shapes := [edgeSub], original_shape := some 0, statuses := [] }

/-- Concrete viewer about to commit on a selected face: shape 0, empty
undo stack, one stale redo entry, original_shape snapshot taken. -/
def viewerFace : PliableViewer :=
  { document := { shape := 0, cached_com := some 3, undo_stack := [], redo_stack := [9],
                  max_history := 20 },
    selected_shapes := [faceSub], original_shape := some 0, statuses := [] }

/-- Any selected edge makes the selection list produce a member with
shape type 6; helper for flag reasoning. -/
theorem all_eq_false_of_any_other (sel : List SubShape) (a b : Nat) (hab : a ≠ b)
    (h : sel.any (fun shp => shp.shapeType == a) = true) :
    sel.all (fun shp => shp.shapeType == b) = false := by
  rcases List.any_eq_true.mp h with ⟨shp, hmem, hshp⟩
  simp only [beq_iff_eq] at hshp
  rw [← Bool.not_eq_true, List.all_eq_true]
  intro hall
  have := hall shp hmem
  simp only [beq_iff_eq] at this
  exact hab (hshp ▸ this)

/-- Claim C1: save_to_history appends an independent copy of the current
shape to the undo stack, evicts the oldest entry (FIFO) exactly when the
stack would exceed the maximum depth of 20, clears the redo stack
unconditionally, and consequently redo() immediately after
save_to_history returns false and changes nothing, regardless of prior
redo availability. -/
theorem C1_save_to_history (d : Document) (hmax : d.max_history = 20) :
    (d.save_to_history.redo_stack = []) ∧
    (d.save_to_history.redo = (false, d.save_to_history)) ∧
    (d.undo_stack.length < 20 →
      d.save_to_history.undo_stack = copyShape d.shape :: d.undo_stack) ∧
    (20 ≤ d.undo_stack.length →
      d.save_to_history.undo_stack = (copyShape d.shape :: d.undo_stack).dropLast) ∧
    (d.undo_stack.length ≤ 20 → d.save_to_history.undo_stack.length ≤ 20) := by
  have hstack : d.save_to_history.undo_stack =
      if (copyShape d.shape :: d.undo_stack).length > d.max_history
        then (copyShape d.shape :: d.undo_stack).dropLast
        else copyShape d.shape :: d.undo_stack := rfl
  have hredo : d.save_to_history.redo_stack = [] := rfl
  refine ⟨hredo, ?_, ?_, ?_, ?_⟩
  · unfold Document.redo
    rw [hredo]
  · intro h
    rw [hstack, hmax]
    split_ifs with hc
    · exfalso
      rw [List.length_cons] at hc
      omega
    · rfl
  · intro h
    rw [hstack, hmax]
    split_ifs with hc
    · rfl
    · exfalso
      rw [List.length_cons] at hc
      omega
  · intro h
    rw [hstack, hmax]
    split_ifs with hc
    · rw [List.length_dropLast, List.length_cons]
      omega
    · rw [List.length_cons] at hc ⊢
      omega

/-- Witness for C1 at a concrete document with a full (depth-20) undo
stack: the oldest entry is evicted and redo fails afterwards. -/
theorem C1_save_to_history_witness :
    (Document.mk 42 none (List.range 20) [7] 20).save_to_history.redo =
      (false, (Document.mk 42 none (List.range 20) [7] 20).save_to_history) ∧
    (Document.mk 42 none (List.range 20) [7] 20).save_to_history.undo_stack =
      (copyShape 42 :: List.range 20).dropLast := by
  have h := C1_save_to_history (Document.mk 42 none (List.range 20) [7] 20) rfl
  exact ⟨h.2.1, h.2.2.2.1 (by decide)⟩

/-- Claim C8: undo() on an empty undo stack returns false and leaves the
document unchanged; on a non-empty undo stack it pushes a copy of the
current shape onto the redo stack, pops the newest undo entry into the
current shape, invalidates the COM cache, and returns true; redo()
behaves symmetrically with the stacks swapped. -/
theorem C8_undo_redo (d : Document) :
    (d.undo_stack = [] → d.undo = (false, d)) ∧
    (∀ top rest, d.undo_stack = top :: rest →
      d.undo = (true, { shape := top, cached_com := none, undo_stack := rest,
                        redo_stack := copyShape d.shape :: d.redo_stack,
                        max_history := d.max_history })) ∧
    (d.redo_stack = [] → d.redo = (false, d)) ∧
    (∀ top rest, d.redo_stack = top :: rest →
      d.redo = (true, { shape := top, cached_com := none, redo_stack := rest,
                        undo_stack := copyShape d.shape :: d.undo_stack,
                        max_history := d.max_history })) := by
  refine ⟨fun h => ?_, fun top rest h => ?_, fun h => ?_, fun top rest h => ?_⟩
  · unfold Document.undo
    rw [h]
  · unfold Document.undo
    rw [h]
  · unfold Document.redo
    rw [h]
  · unfold Document.redo
    rw [h]

/-- Witness for C8: a concrete document with one undo entry and an empty
redo stack; undo succeeds and produces the expected state, redo fails. -/
theorem C8_undo_redo_witness :
    (Document.mk 5 (some 9) [3] [] 20).undo =
      (true, { shape := 3, cached_com := none, undo_stack := [],
               redo_stack := [copyShape 5], max_history := 20 }) ∧
    (Document.mk 5 (some 9) [3] [] 20).redo = (false, Document.mk 5 (some 9) [3] [] 20) := by
  have h := C8_undo_redo (Document.mk 5 (some 9) [3] [] 20)
  exact ⟨h.2.1 3 [] rfl, h.2.2.1 rfl⟩

/-- Claim C5: for every camera state and screen drag delta, the push/pull
mapper computes the offset as the camera-space delta
(right * dx * mmPerPixel - up * dy * mmPerPixel) dotted with the face's
outward normal, with the normal flipped when the face orientation is
REVERSED and the offset negated exactly when
normal . (cameraEye - centroid) is negative; in particular, with normal
(0,0,1), up (0,1,0), screen delta (0,-10) and mmPerPixel = 1 the
camera-space delta is (0,10,0) and the offset is 0. -/
theorem C5_push_pull_mapper :
    (∀ (cam : CameraState) (f : FaceData) (dx dy : ℚ),
      f.normalDefined = true →
      cam.up.dot cam.up = 1 →
      cam.direction.dot cam.direction = 1 →
      cam.direction.dot cam.up = 0 →
      calculate_push_pull_offset cam f dx dy = pushPullOffset_spec cam f dx dy) ∧
    camera_space_delta cam0 0 (-10) = ⟨0, 10, 0⟩ ∧
    calculate_push_pull_offset cam0 face0 0 (-10) = 0 := by
  refine ⟨?_,
    by norm_num [camera_space_delta, cam0, Vec3.cross, Vec3.mk.injEq],
    by norm_num [calculate_push_pull_offset, get_face_center_and_normal,
         camera_space_delta, cam0, face0, Vec3.cross, Vec3.dot, Vec3.sub]⟩
  intro cam f dx dy hnd _hu _hd _ho
  unfold calculate_push_pull_offset pushPullOffset_spec get_face_center_and_normal
    camera_space_delta
  cases hrev : f.reversedOrientation <;>
    simp only [hnd, hrev, if_true, if_false, Bool.false_eq_true, ite_true, ite_false,
      Vec3.dot, Vec3.sub, Vec3.neg, Vec3.smul, Vec3.cross] <;>
    split_ifs <;> ring

/-- Witness for C5 at the spec's concrete camera and face. -/
theorem C5_push_pull_mapper_witness :
    calculate_push_pull_offset cam0 face0 3 (-7) = pushPullOffset_spec cam0 face0 3 (-7) :=
  C5_push_pull_mapper.1 cam0 face0 3 (-7) rfl
    (by norm_num [cam0, Vec3.dot]) (by norm_num [cam0, Vec3.dot])
    (by norm_num [cam0, Vec3.dot])

/-- Claim C6: the edge-edit mapper classifies the gesture as fillet
exactly when the current distance to the projected center of mass
strictly exceeds the drag-start distance, as chamfer otherwise
(including equality), and returns radius
|distCurrent - distStart| * mmPerPixel; in particular distStart 50 px
with distCurrent 80 px gives fillet and distCurrent 20 px gives
chamfer. -/
theorem C6_fillet_chamfer_mapper :
    (∀ scale screen_height dist_start dist_current : ℚ,
      ((calculate_fillet_chamfer_radius scale screen_height dist_start dist_current).2 =
          OpKind.fillet ↔ dist_current > dist_start) ∧
      ((calculate_fillet_chamfer_radius scale screen_height dist_start dist_current).2 =
          OpKind.chamfer ↔ dist_current ≤ dist_start) ∧
      (calculate_fillet_chamfer_radius scale screen_height dist_start dist_current).1 =
        |dist_current - dist_start| * ((screen_height / scale) / screen_height)) ∧
    (calculate_fillet_chamfer_radius 1 800 50 80).2 = OpKind.fillet ∧
    (calculate_fillet_chamfer_radius 1 800 50 20).2 = OpKind.chamfer := by
  refine ⟨?_, by norm_num [calculate_fillet_chamfer_radius],
    by norm_num [calculate_fillet_chamfer_radius]⟩
  intro scale screen_height dist_start dist_current
  simp only [calculate_fillet_chamfer_radius]
  refine ⟨?_, ?_, trivial⟩ <;>
    rcases lt_or_le dist_start dist_current with h | h <;>
    first
      | simp [h, not_le.mpr h]
      | simp [h, not_lt.mpr h]

/-- Claim C9: for every committed push/pull whose offset clears the no-op
threshold, offset_face hands the prism builder the face normal scaled by
the offset, invokes the boolean Fuse exactly when the offset is strictly
positive and the boolean Cut exactly when it is negative (each
conditional on the prism build reporting IsDone), and converts builder
exceptions into an explicit unchanged-solid result instead of letting
them escape. -/
theorem C9_boolean_polarity (k : GeomKernel) (s : Shape) (f : FaceData) (d : ℚ)
    (hd : ¬ |d| < 1 / 100) :
    ((offset_face k (some s) (some f) d).2.head? =
      some (KCall.mkPrism
        ⟨(get_face_center_and_normal f).2.x * d,
         (get_face_center_and_normal f).2.y * d,
         (get_face_center_and_normal f).2.z * d⟩)) ∧
    (KCall.fuseOp ∈ (offset_face k (some s) (some f) d).2 ↔
      d > 0 ∧ k.prism.isDone = true) ∧
    (KCall.cutOp ∈ (offset_face k (some s) (some f) d).2 ↔
      d < 0 ∧ k.prism.isDone = true) ∧
    ((k.prism = KOutcome.raises ∨ (if d > 0 then k.fuse else k.cut) = KOutcome.raises) →
      (offset_face k (some s) (some f) d).1 = some s) := by
  have hd0 : d < 0 ∨ d > 0 := by
    rcases lt_trichotomy d 0 with h | h | h
    · exact Or.inl h
    · exact absurd (by rw [h]; norm_num) hd
    · exact Or.inr h
  simp only [offset_face]
  rw [if_neg hd]
  rcases hd0 with hneg | hpos
  · have hngt : ¬ d > 0 := not_lt.mpr hneg.le
    simp only [if_neg hngt]
    cases k.prism <;> rcases hc : k.cut with _ | _ | _ | _ <;>
      rcases hr : k.refine with ⟨w, _ | _⟩ | _ | _ <;>
      simp_all [KOutcome.isDone, hneg, hngt, not_lt.mpr hneg.le]
  · have hngt : ¬ d < 0 := not_lt.mpr hpos.le
    simp only [if_pos hpos]
    cases k.prism <;> rcases hc : k.fuse with _ | _ | _ | _ <;>
      rcases hr : k.refine with ⟨w, _ | _⟩ | _ | _ <;>
      simp_all [KOutcome.isDone, hpos, hngt]

/-- Witness for C9: with a fully succeeding stub kernel and offset 5 the
fuse operation appears in the trace. -/
theorem C9_boolean_polarity_witness :
    KCall.fuseOp ∈ (offset_face kernelTimeout (some 0) (some face0) 5).2 :=
  (C9_boolean_polarity kernelTimeout 0 face0 5 (by norm_num)).2.1.mpr
    ⟨by norm_num, rfl⟩


/-- Characterization of the offset_face result above the no-op
threshold: a failed prism build or a failed boolean returns the input
solid; a successful boolean returns the unrefined result unless the
refinement finished with a non-null shape. -/
theorem offset_face_result_cases (k : GeomKernel) (s : Shape) (f : FaceData) (d : ℚ)
    (hd : ¬ |d| < 1 / 100) :
    (offset_face k (some s) (some f) d).1 =
      if k.prism.isDone = false then some s
      else
        match (if d > 0 then k.fuse else k.cut) with
        | KOutcome.success r =>
          match k.refine with
          | RefineOutcome.done w isNull => if isNull then some r else some w
          | _ => some r
        | _ => some s := by
  simp only [offset_face]
  rw [if_neg hd]
  cases k.prism <;> cases hbo : (if d > 0 then k.fuse else k.cut) <;>
    rcases hr : k.refine with ⟨w, _ | _⟩ | _ | _ <;> rfl

/-- For a non-None solid, offset_face always produces a shape. -/
theorem offset_face_isSome (k : GeomKernel) (s : Shape) (f : Option FaceData) (d : ℚ) :
    (offset_face k (some s) f d).1.isSome = true := by
  rcases f with _ | g
  · rfl
  · by_cases hdl : |d| < 1 / 100
    · simp only [offset_face]
      rw [if_pos hdl]
      rfl
    · simp only [offset_face]
      rw [if_neg hdl]
      cases k.prism <;> cases hbo : (if d > 0 then k.fuse else k.cut) <;>
        rcases hr : k.refine with ⟨w, _ | _⟩ | _ | _ <;> rfl

/-- Counterexample for claim C10 as stated: offset_face does NOT return a
non-None result for every input — when the solid argument itself is None
the first guard returns it unchanged, i.e. returns None. -/
theorem C10_counterexample :
    (offset_face kernelFail none (some face0) 5).1 = none := rfl

/-- Claim C10 (amended): for every input whose solid argument is
non-None, offset_face never returns None; it returns the input solid
unchanged on a None face, a sub-threshold distance, a failed prism
build, and a failed, null or raising boolean; consequently the
None-check abort branch of finalize_push_pull is never taken, and after
a kernel-failed push/pull the document's shape is replaced with the
(unchanged) original and the success status is reported. -/
theorem C10_offset_face_total (k : GeomKernel) (s : Shape) (f : Option FaceData)
    (d : ℚ) (v : PliableViewer) (s0 : Shape) (sf : SubShape)
    (hface : v.selected_shapes.find? (fun shp => shp.shapeType == 4) = some sf)
    (horig : v.original_shape = some s0)
    (hclean : Status.offsetFaceReturnedNone ∉ v.statuses) :
    ((offset_face k (some s) f d).1 ≠ none) ∧
    (f = none → (offset_face k (some s) f d).1 = some s) ∧
    (|d| < 1 / 100 → (offset_face k (some s) f d).1 = some s) ∧
    (∀ g, f = some g → ¬ |d| < 1 / 100 → k.prism.isDone = false →
      (offset_face k (some s) f d).1 = some s) ∧
    (∀ g, f = some g → ¬ |d| < 1 / 100 →
      (if d > 0 then k.fuse else k.cut).failed = true →
      (offset_face k (some s) f d).1 = some s) ∧
    (Status.offsetFaceReturnedNone ∉ (finalize_push_pull k v d).1.statuses) ∧
    (¬ |d| < 1 / 100 → k.prism.isDone = true →
      (if d > 0 then k.fuse else k.cut).failed = true →
      (finalize_push_pull k v d).1.document.shape = s0 ∧
      Status.pushPullComplete ∈ (finalize_push_pull k v d).1.statuses) := by
  have hboolfail : ∀ (t : Shape) (g : FaceData), ¬ |d| < 1 / 100 →
      (if d > 0 then k.fuse else k.cut).failed = true →
      (offset_face k (some t) (some g) d).1 = some t := by
    intro t g hdge hfail
    rw [offset_face_result_cases k t g d hdge]
    rcases hbo : (if d > 0 then k.fuse else k.cut) with r | r | _ | _
    · rw [hbo] at hfail
      exact absurd hfail (by simp [KOutcome.failed])
    all_goals split <;> rfl
  refine ⟨?_, ?_, ?_, ?_, ?_, ?_, ?_⟩
  · intro hnone
    have := offset_face_isSome k s f d
    rw [hnone] at this
    exact absurd this (by simp)
  · rintro rfl
    rfl
  · intro hdl
    rcases f with _ | g
    · rfl
    · simp only [offset_face]
      rw [if_pos hdl]
  · rintro g rfl hdge hpf
    rw [offset_face_result_cases k s g d hdge, if_pos hpf]
  · rintro g rfl hdge hfail
    exact hboolfail s g hdge hfail
  · simp only [finalize_push_pull, hface, horig]
    obtain ⟨ns, hns⟩ := Option.isSome_iff_exists.mp
      (offset_face_isSome k s0 (some sf.faceData) d)
    rw [hns]
    simp only [List.mem_append, List.mem_singleton, not_or]
    refine ⟨⟨⟨hclean, by simp⟩, by simp⟩, by simp⟩
  · intro hdge hpd hfail
    have hres : (offset_face k (some s0) (some sf.faceData) d).1 = some s0 :=
      hboolfail s0 sf.faceData hdge hfail
    simp only [finalize_push_pull, hface, horig, hres]
    refine ⟨rfl, ?_⟩
    simp

/-- Witness for C10 (amended) at the all-failing stub kernel and the
concrete face-selected viewer: the None-check abort status is never
reported. -/
theorem C10_offset_face_total_witness :
    Status.offsetFaceReturnedNone ∉ (finalize_push_pull kernelFail viewerFace 5).1.statuses :=
  (C10_offset_face_total kernelFail 0 (some face0) 5 viewerFace 0 faceSub rfl rfl
    (by simp [viewerFace])).2.2.2.2.2.1

/-- Claim C2, evaluated at the failing input: a fillet commit whose
kernel fillet build reports failure (IsDone false) aborts with the
specific error status, but the undo stack has GROWN by one entry (the
pre-edit snapshot pushed by save_to_history before the kernel call), so
the claim's requirement that the aborted commit leaves no history entry
is violated by the code; the current shape itself stays unchanged. -/
theorem C2_aborted_commit_keeps_history_entry :
    (finalize_fillet_chamfer kernelFail viewerEdge 5 OpKind.fillet).map
        (fun p => (p.1.document.shape, p.1.document.undo_stack, p.1.statuses, p.2)) =
      some (0, [0],
        [Status.computingOp OpKind.fillet, Status.opFailed OpKind.fillet],
        [KCall.filletOp]) ∧
    viewerEdge.document.undo_stack = [] := by
  refine ⟨?_, rfl⟩
  norm_num [finalize_fillet_chamfer, viewerEdge, kernelFail, edgeSub,
    Document.save_to_history, copyShape]

/-- Claim C3, evaluated at the failing input: a push/pull commit with
confirmed offset 1/200 (below the 0.01 threshold) makes no kernel call
(empty trace) and leaves the shape unchanged, but it still pushes a
history entry (save_to_history runs in finalize_push_pull before the
threshold check inside offset_face) and reports the success status, not
the too-small one; the fillet path, whose threshold check precedes the
history push, is a true no-op for radius 1/4. -/
theorem C3_subthreshold_pushpull_pushes_history :
    ((finalize_push_pull kernelFail viewerFace (1 / 200)).1.document.shape = 0 ∧
     (finalize_push_pull kernelFail viewerFace (1 / 200)).1.document.undo_stack = [0] ∧
     (finalize_push_pull kernelFail viewerFace (1 / 200)).2 = [] ∧
     (finalize_push_pull kernelFail viewerFace (1 / 200)).1.statuses =
       [Status.computingPushPull, Status.pushPullComplete, Status.ready]) ∧
    (finalize_fillet_chamfer kernelFail viewerEdge (1 / 4) OpKind.fillet).map
        (fun p => (p.1.document.undo_stack, p.1.statuses, p.2)) =
      some ([], [Status.operationTooSmall], []) ∧
    viewerFace.document.undo_stack = [] := by
  refine ⟨?_, ?_, rfl⟩
  · norm_num [finalize_push_pull, offset_face, viewerFace, faceSub, kernelFail,
      Document.save_to_history, Document.set_shape, Document.update_center_of_mass,
      copyShape, abs_of_pos]
  · norm_num [finalize_fillet_chamfer, viewerEdge, edgeSub, abs_of_pos]

/-- Counterexample for claim C4 as stated: with a stub kernel whose
fillet build succeeds (result 12) and whose refinement raises, the
fillet commit does NOT complete with the unrefined result — it aborts
(shape stays 0) with the commit-wide error status, because the
fillet-path refinement runs inline with no worker thread and its
exception is caught only by the abort-everything except. -/
theorem C4_counterexample :
    (finalize_fillet_chamfer kernelTimeout viewerEdge 5 OpKind.fillet).map
        (fun p => (p.1.document.shape, p.1.statuses, p.2)) =
      some (0, [Status.computingOp OpKind.fillet, Status.opError OpKind.fillet],
        [KCall.filletOp, KCall.refineOp]) ∧
    ¬ (finalize_fillet_chamfer kernelTimeout viewerEdge 5 OpKind.fillet).map
        (fun p => p.1.document.shape) = some 12 := by
  constructor <;>
    norm_num [finalize_fillet_chamfer, viewerEdge, kernelTimeout, edgeSub,
      Document.save_to_history, copyShape]

/-- Claim C4 (amended): only the push/pull path guards refinement with
the worker-thread timeout; offset_face commits the unrefined boolean
result on a refinement timeout, exception or null refined shape, and the
refined shape otherwise, while the fillet/chamfer path refines inline
with no timeout, falls back to the unrefined fillet result only on a
null refined shape, and on a refinement exception aborts the commit
(shape unchanged, commit-wide error status) instead of completing. -/
theorem C4_refinement_degradation (k : GeomKernel) (s r q : Shape) (f : FaceData)
    (d radius : ℚ) (v : PliableViewer)
    (hd : ¬ |d| < 1 / 100)
    (hprism : k.prism.isDone = true)
    (hbool : (if d > 0 then k.fuse else k.cut) = KOutcome.success r)
    (hsel : (v.selected_shapes.filter (fun shp => shp.shapeType == 6)).isEmpty = false)
    (hrad : ¬ |radius| < 1 / 2)
    (horig : v.original_shape = some s)
    (hfb : k.filletBuild = KOutcome.success q) :
    ((k.refine = RefineOutcome.timesOut →
        (offset_face k (some s) (some f) d).1 = some r) ∧
     (k.refine = RefineOutcome.raises →
        (offset_face k (some s) (some f) d).1 = some r) ∧
     (∀ w, k.refine = RefineOutcome.done w true →
        (offset_face k (some s) (some f) d).1 = some r) ∧
     (∀ w, k.refine = RefineOutcome.done w false →
        (offset_face k (some s) (some f) d).1 = some w)) ∧
    ((∀ w, k.refineInline = InlineRefineOutcome.done w true →
        (finalize_fillet_chamfer k v radius OpKind.fillet).map
          (fun p => p.1.document.shape) = some q) ∧
     (k.refineInline = InlineRefineOutcome.raises →
        (finalize_fillet_chamfer k v radius OpKind.fillet).map
          (fun p => (p.1.document.shape, p.1.statuses)) =
          some (v.document.shape,
            v.statuses ++ [Status.computingOp OpKind.fillet,
                           Status.opError OpKind.fillet]))) := by
  refine ⟨⟨?_, ?_, ?_, ?_⟩, ?_, ?_⟩
  · intro hr
    rw [offset_face_result_cases k s f d hd]
    simp [hprism, hbool, hr]
  · intro hr
    rw [offset_face_result_cases k s f d hd]
    simp [hprism, hbool, hr]
  · intro w hr
    rw [offset_face_result_cases k s f d hd]
    simp [hprism, hbool, hr]
  · intro w hr
    rw [offset_face_result_cases k s f d hd]
    simp [hprism, hbool, hr]
  · intro w hri
    simp only [finalize_fillet_chamfer, hsel, Bool.false_eq_true, if_false,
      ite_false, if_neg hrad, horig, hfb, hri]
    simp [Document.save_to_history, Document.set_shape, Document.update_center_of_mass]
  · intro hri
    simp only [finalize_fillet_chamfer, hsel, Bool.false_eq_true, if_false,
      ite_false, if_neg hrad, horig, hfb, hri]
    simp [Document.save_to_history]

/-- Witness for C4 (amended): with the timing-out stub kernel, a fuse of
offset 5 commits the unrefined boolean result 10. -/
theorem C4_refinement_degradation_witness :
    (offset_face kernelTimeout (some 0) (some face0) 5).1 = some 10 :=
  (C4_refinement_degradation kernelTimeout 0 10 12 face0 5 5 viewerEdge
    (by norm_num [abs_of_pos]) rfl (by norm_num [kernelTimeout]) rfl
    (by norm_num [abs_of_pos]) rfl rfl).1.1 rfl


/-- If every selected sub-shape has kind a, none has a different kind
b. -/
theorem any_eq_false_of_all_other (sel : List SubShape) (a b : Nat) (hab : a ≠ b)
    (h : sel.all (fun shp => shp.shapeType == a) = true) :
    sel.any (fun shp => shp.shapeType == b) = false := by
  rw [← Bool.not_eq_true, List.any_eq_true]
  rintro ⟨shp, hm, hb⟩
  have ha := List.all_eq_true.mp h shp hm
  simp only [beq_iff_eq] at ha hb
  exact hab (ha.symm.trans hb)

/-- A non-empty selection whose members all have kind a contains one. -/
theorem any_eq_true_of_all_self (sel : List SubShape) (a : Nat) (hne : sel ≠ [])
    (h : sel.all (fun shp => shp.shapeType == a) = true) :
    sel.any (fun shp => shp.shapeType == a) = true := by
  rcases List.exists_mem_of_ne_nil sel hne with ⟨shp, hm⟩
  exact List.any_eq_true.mpr ⟨shp, hm, List.all_eq_true.mp h shp hm⟩

/-- Exhaustive discrimination of the spec-side classification of a
non-empty selection by the three homogeneity tests. -/
theorem classify_elim (sel : List SubShape) (hemp : ¬ sel.isEmpty = true) :
    (sel.all (fun shp => shp.shapeType == 4) = true ∧
      classify sel = SelectionClass.faceOnly sel.length) ∨
    (sel.all (fun shp => shp.shapeType == 4) = false ∧
      sel.all (fun shp => shp.shapeType == 6) = true ∧
      classify sel = SelectionClass.edgeOnly sel.length) ∨
    (sel.all (fun shp => shp.shapeType == 4) = false ∧
      sel.all (fun shp => shp.shapeType == 6) = false ∧
      sel.all (fun shp => shp.shapeType == 7) = true ∧
      classify sel = SelectionClass.vertexOnly sel.length) ∨
    (sel.all (fun shp => shp.shapeType == 4) = false ∧
      sel.all (fun shp => shp.shapeType == 6) = false ∧
      sel.all (fun shp => shp.shapeType == 7) = false ∧
      classify sel = SelectionClass.mixed) := by
  have hne : ¬ sel = [] := fun hh => hemp (by simp [hh])
  rcases ha : sel.all (fun shp => shp.shapeType == 4) with _ | _
  · rcases hb : sel.all (fun shp => shp.shapeType == 6) with _ | _
    · rcases hc : sel.all (fun shp => shp.shapeType == 7) with _ | _
      · refine Or.inr (Or.inr (Or.inr ⟨rfl, rfl, rfl, ?_⟩))
        simp [classify, hne, ha, hb, hc]
      · refine Or.inr (Or.inr (Or.inl ⟨rfl, rfl, rfl, ?_⟩))
        simp [classify, hne, ha, hb, hc]
    · refine Or.inr (Or.inl ⟨rfl, rfl, ?_⟩)
      simp [classify, hne, ha, hb]
  · refine Or.inl ⟨rfl, ?_⟩
    simp [classify, hne, ha]

/-- Counterexample for claim C7 as stated: the edge-plus-vertex selection
classifies as Mixed, yet the button-down handler reports for it the very
same status as for a vertex-only selection (the vertex-unsupported
message), not a distinct mixed-selection message, because the source's
mixed branch fires only when faces are present. -/
theorem C7_counterexample :
    classify [edgeSub, vertexSub] = SelectionClass.mixed ∧
    classify [vertexSub] = SelectionClass.vertexOnly 1 ∧
    (on_mouse_press [edgeSub, vertexSub]).1 = none ∧
    (on_mouse_press [edgeSub, vertexSub]).2 = (on_mouse_press [vertexSub]).2 ∧
    (on_mouse_press [edgeSub, vertexSub]).2 ≠ some Status.mixedSelection := by
  refine ⟨rfl, rfl, rfl, rfl, ?_⟩
  intro h
  exact absurd (Option.some.inj h) (by decide)

/-- Claim C7 (amended): on modifier button-down a drag is armed exactly
when the selection classifies as FaceOnly or EdgeOnly; NoSelection
reports the no-selection status, a Mixed selection containing a face
reports the mixed-selection status, VertexOnly reports the
vertex-unsupported status — but a Mixed selection WITHOUT faces (the
edge-plus-vertex mix) also reports the vertex-unsupported status, shared
with VertexOnly, instead of a distinct mixed message. -/
theorem C7_gesture_gating (sel : List SubShape) (hwf : wellFormedSel sel) :
    ((on_mouse_press sel).1.isSome = true ↔
      (∃ n, classify sel = SelectionClass.faceOnly n) ∨
      (∃ n, classify sel = SelectionClass.edgeOnly n)) ∧
    (classify sel = SelectionClass.noSelection →
      on_mouse_press sel = (none, some Status.noSelection)) ∧
    (classify sel = SelectionClass.mixed → hasFaces sel = true →
      on_mouse_press sel = (none, some Status.mixedSelection)) ∧
    (classify sel = SelectionClass.mixed → hasFaces sel = false →
      on_mouse_press sel = (none, some Status.vertexUnsupported)) ∧
    ((∃ n, classify sel = SelectionClass.vertexOnly n) →
      on_mouse_press sel = (none, some Status.vertexUnsupported)) ∧
    ((∃ n, classify sel = SelectionClass.faceOnly n) →
      on_mouse_press sel = (some DragMode.pushPull, some Status.pushPullDragStarted)) ∧
    ((∃ n, classify sel = SelectionClass.edgeOnly n) →
      on_mouse_press sel = (some DragMode.filletChamfer, some Status.filletDragStarted)) := by
  by_cases hemp : sel.isEmpty = true
  · have hsel : sel = [] := List.isEmpty_iff.mp hemp
    subst hsel
    simp [on_mouse_press, classify]
  · have hne : sel ≠ [] := by
      intro h
      rw [h] at hemp
      exact hemp rfl
    have hB : classify sel = SelectionClass.noSelection →
        on_mouse_press sel = (none, some Status.noSelection) := by
      intro h
      exfalso
      rcases classify_elim sel hemp with ⟨_, hcl⟩ | ⟨_, _, hcl⟩ |
        ⟨_, _, _, hcl⟩ | ⟨_, _, _, hcl⟩ <;>
        · rw [hcl] at h
          simp at h
    have hF : (∃ n, classify sel = SelectionClass.faceOnly n) →
        on_mouse_press sel = (some DragMode.pushPull, some Status.pushPullDragStarted) := by
      rintro ⟨n, h⟩
      have hall4 : sel.all (fun shp => shp.shapeType == 4) = true := by
        rcases classify_elim sel hemp with ⟨ha, hcl⟩ | ⟨_, _, hcl⟩ |
          ⟨_, _, _, hcl⟩ | ⟨_, _, _, hcl⟩
        · exact ha
        all_goals rw [hcl] at h
        all_goals simp at h
      have hf : hasFaces sel = true := any_eq_true_of_all_self sel 4 hne hall4
      have h6 : hasEdges sel = false := any_eq_false_of_all_other sel 4 6 (by decide) hall4
      have h7 : hasVertices sel = false := any_eq_false_of_all_other sel 4 7 (by decide) hall4
      simp [on_mouse_press, hemp, hf, h6, h7]
    have hG : (∃ n, classify sel = SelectionClass.edgeOnly n) →
        on_mouse_press sel = (some DragMode.filletChamfer, some Status.filletDragStarted) := by
      rintro ⟨n, h⟩
      have hall6 : sel.all (fun shp => shp.shapeType == 6) = true := by
        rcases classify_elim sel hemp with ⟨_, hcl⟩ | ⟨_, hb, hcl⟩ |
          ⟨_, _, _, hcl⟩ | ⟨_, _, _, hcl⟩
        · rw [hcl] at h
          simp at h
        · exact hb
        all_goals rw [hcl] at h
        all_goals simp at h
      have he : hasEdges sel = true := any_eq_true_of_all_self sel 6 hne hall6
      have hf : hasFaces sel = false := any_eq_false_of_all_other sel 6 4 (by decide) hall6
      have h7 : hasVertices sel = false := any_eq_false_of_all_other sel 6 7 (by decide) hall6
      simp [on_mouse_press, hemp, hf, he, h7]
    have hE : (∃ n, classify sel = SelectionClass.vertexOnly n) →
        on_mouse_press sel = (none, some Status.vertexUnsupported) := by
      rintro ⟨n, h⟩
      have hall7 : sel.all (fun shp => shp.shapeType == 7) = true := by
        rcases classify_elim sel hemp with ⟨_, hcl⟩ | ⟨_, _, hcl⟩ |
          ⟨_, _, hc, hcl⟩ | ⟨_, _, _, hcl⟩
        · rw [hcl] at h
          simp at h
        · rw [hcl] at h
          simp at h
        · exact hc
        · rw [hcl] at h
          simp at h
      have hv : hasVertices sel = true := any_eq_true_of_all_self sel 7 hne hall7
      have hf : hasFaces sel = false := any_eq_false_of_all_other sel 7 4 (by decide) hall7
      simp [on_mouse_press, hemp, hf, hv]
    have hC : classify sel = SelectionClass.mixed → hasFaces sel = true →
        on_mouse_press sel = (none, some Status.mixedSelection) := by
      intro h hfT
      have hnall4 : ¬ sel.all (fun shp => shp.shapeType == 4) = true := by
        rcases classify_elim sel hemp with ⟨_, hcl⟩ | ⟨ha, _, _⟩ |
          ⟨ha, _, _, _⟩ | ⟨ha, _, _, _⟩
        · rw [hcl] at h
          simp at h
        all_goals simp [ha]
      have hev : hasEdges sel = true ∨ hasVertices sel = true := by
        rcases (by simpa [List.all_eq_true] using hnall4 :
            ∃ shp, shp ∈ sel ∧ ¬ shp.shapeType = 4) with ⟨shp, hm, hns⟩
        rcases hwf shp hm with h4 | h6 | h7
        · exact absurd h4 hns
        · exact Or.inl (List.any_eq_true.mpr ⟨shp, hm, by simp [h6]⟩)
        · exact Or.inr (List.any_eq_true.mpr ⟨shp, hm, by simp [h7]⟩)
      rcases hev with he | hv
      · simp [on_mouse_press, hemp, hfT, he]
      · simp [on_mouse_press, hemp, hfT, hv]
    have hD : classify sel = SelectionClass.mixed → hasFaces sel = false →
        on_mouse_press sel = (none, some Status.vertexUnsupported) := by
      intro h hfF
      have hv : hasVertices sel = true := by
        by_contra hvF
        rw [Bool.not_eq_true] at hvF
        have hall6 : sel.all (fun shp => shp.shapeType == 6) = true := by
          rw [List.all_eq_true]
          intro shp hm
          rcases hwf shp hm with h4 | h6 | h7
          · exfalso
            have hfT : hasFaces sel = true := List.any_eq_true.mpr ⟨shp, hm, by simp [h4]⟩
            rw [hfF] at hfT
            simp at hfT
          · simp [h6]
          · exfalso
            have hvT : hasVertices sel = true := List.any_eq_true.mpr ⟨shp, hm, by simp [h7]⟩
            rw [hvF] at hvT
            simp at hvT
        rcases classify_elim sel hemp with ⟨_, hcl⟩ | ⟨_, _, hcl⟩ |
          ⟨_, hb, _, hcl⟩ | ⟨_, hb, _, hcl⟩
        · rw [hcl] at h
          simp at h
        · rw [hcl] at h
          simp at h
        · rw [hall6] at hb
          simp at hb
        · rw [hall6] at hb
          simp at hb
      simp [on_mouse_press, hemp, hfF, hv]
    refine ⟨?_, hB, hC, hD, hE, hF, hG⟩
    constructor
    · intro hsome
      rcases hcl : classify sel with _ | n | n | n | _
      · rw [hB hcl] at hsome
        simp at hsome
      · exact Or.inl ⟨n, rfl⟩
      · exact Or.inr ⟨n, rfl⟩
      · rw [hE ⟨n, hcl⟩] at hsome
        simp at hsome
      · rcases hfc : hasFaces sel with _ | _
        · rw [hD hcl hfc] at hsome
          simp at hsome
        · rw [hC hcl hfc] at hsome
          simp at hsome
    · rintro (⟨n, h⟩ | ⟨n, h⟩)
      · rw [hF ⟨n, h⟩]
        rfl
      · rw [hG ⟨n, h⟩]
        rfl

/-- Witness for C7 (amended): a single selected face arms the push/pull
drag with its start status. -/
theorem C7_gesture_gating_witness :
    on_mouse_press [faceSub] = (some DragMode.pushPull, some Status.pushPullDragStarted) :=
  (C7_gesture_gating [faceSub] (by unfold wellFormedSel; decide)).2.2.2.2.2.1
    ⟨1, by decide⟩
